import Mathlib

/-!
Verification development for the Amazon Conversions API adapter
(`amazon-conversions-api` destination): the token exchanger
(`getAuthToken`), the event submitter (`sendEventsRequest`) and the
HTTP error classifier (`handleAmazonApiError`), together with the
data model of `types.ts`.

The repository sources available here contain the type declarations
(`types.ts`) and the unit-test file exercising the three `utils`
functions; the `utils` module itself is absent, so the three
operations are modelled from the specification (each such definition
is marked `Modelled from the spec:`), with the test file used as a
cross-check of the modelled behaviour.
-/

/-- Consent values for `amznAdStorage` / `amznUserData` (from `types.ts`). -/
inductive ConsentGrant
  | GRANTED
  | DENIED
  deriving DecidableEq

/-- Structure `GeographicConsentData` from `types.ts`. -/
structure GeographicConsentData where
  ipAddress : Option String
  deriving DecidableEq

/-- Structure `AmazonConsentFormat` from `types.ts`. -/
structure AmazonConsentFormat where
  amznAdStorage : Option ConsentGrant
  amznUserData : Option ConsentGrant
  deriving DecidableEq

/-- Structure `ConsentData` from `types.ts`. -/
structure ConsentData where
  geo : Option GeographicConsentData
  amazonConsent : Option AmazonConsentFormat
  tcf : Option String
  gpp : Option String
  deriving DecidableEq

/-- Data type of a custom attribute (from `types.ts`). -/
inductive AttributeDataType
  | STRING
  | NUMBER
  | BOOLEAN
  deriving DecidableEq

/-- Structure `CustomAttributeV1` from `types.ts`. -/
structure CustomAttributeV1 where
  name : String
  dataType : Option AttributeDataType
  value : String
  deriving DecidableEq

/-- Enum `MatchKeyTypeV1` from `types.ts`: user-identifier kinds for matching. -/
inductive MatchKeyTypeV1
  | EMAIL
  | PHONE
  | FIRST_NAME
  | LAST_NAME
  | ADDRESS
  | CITY
  | STATE
  | POSTAL
  | MAID
  | RAMP_ID
  | MATCH_ID
  deriving DecidableEq

/-- Structure `MatchKeyV1` from `types.ts`. `values` is a one-element tuple in the
source (`[string]`); it is modelled as a list. -/
structure MatchKeyV1 where
  type : MatchKeyTypeV1
  values : List String
  deriving DecidableEq

/-- Enum `ConversionTypeV2` from `types.ts`: the 12 canonical conversion types. -/
inductive ConversionTypeV2
  | ADD_TO_SHOPPING_CART
  | APPLICATION
  | CHECKOUT
  | CONTACT
  | LEAD
  | OFF_AMAZON_PURCHASES
  | MOBILE_APP_FIRST_START
  | PAGE_VIEW
  | SEARCH
  | SIGN_UP
  | SUBSCRIBE
  | OTHER
  deriving DecidableEq

/-- Enum `CurrencyCodeV1` from `types.ts`: the 18 ISO currency codes. -/
inductive CurrencyCodeV1
  | AED
  | AUD
  | BRL
  | CAD
  | CNY
  | EUR
  | GBP
  | INR
  | JPY
  | MXN
  | SAR
  | SEK
  | SGD
  | TRY
  | USD
  | DKK
  | NOK
  | NZD
  deriving DecidableEq

/-- Structure `EventData` from `types.ts`. JavaScript `number` fields (`value`,
`unitsSold`) are modelled as integers; the adapter treats the whole
record as an opaque payload and never computes with them. -/
structure EventData where
  name : String
  eventType : ConversionTypeV2
  eventActionSource : String
  countryCode : String
  timestamp : String
  matchKeys : Option (List MatchKeyV1)
  value : Option Int
  currencyCode : Option CurrencyCodeV1
  unitsSold : Option Int
  clientDedupeId : Option String
  dataProcessingOptions : Option (List String)
  consent : Option ConsentData
  customAttributes : Option (List CustomAttributeV1)
  deriving DecidableEq

/-- The body (`data`) of an upstream HTTP response: only its optional
`message` field is inspected by the classifier. -/
structure ResponseData where
  message : Option String
  deriving DecidableEq

/-- The response headers, of which only `retry-after` is inspected.
`retryAfter` holds the raw string value of the `retry-after` header
when that header is present. -/
structure ResponseHeaders where
  retryAfter : Option String
  deriving DecidableEq

/-- A raw HTTP response `{status?, data?, headers?}` as consumed by the
error classifier and produced by the event submitter's transport. -/
structure ApiResponse where
  status : Option Nat
  data : Option ResponseData
  headers : Option ResponseHeaders
  deriving DecidableEq

/-- The normalized error (`IntegrationError`) carrying a human message,
a stable code and an HTTP status. -/
structure IntegrationError where
  message : String
  code : String
  status : Nat
  deriving DecidableEq

/-- The `data.message` of a response, with the literal fallback
`"Unknown error"` when the body or its `message` field is absent. -/
def responseMessage (response : ApiResponse) : String :=
  (response.data.bind ResponseData.message).getD "Unknown error"

/-- The `retry-after` header value of a response, when present. -/
def retryAfterHeader (response : ApiResponse) : Option String :=
  response.headers.bind ResponseHeaders.retryAfter

/-- Modelled from the spec: `handleAmazonApiError` from the repository's
`utils` module (absent from the sources; only its test file is present).
A pure lookup keyed on `response.status` (default 400 when absent):
401, 403, 415, 429 and 500 map to dedicated codes, every other status
falls through to `AMAZON_API_ERROR`; the 429 message has two variants,
selected by presence of the `retry-after` header, whose value is echoed
verbatim. -/
def handleAmazonApiError (response : ApiResponse) : IntegrationError :=
  let status := response.status.getD 400
  if status = 401 then
    { message := "Authentication failed: " ++ responseMessage response
      code := "AMAZON_AUTH_ERROR"
      status := 401 }
  else if status = 403 then
    { message := "You do not have permission to perform this action: " ++
        responseMessage response
      code := "AMAZON_FORBIDDEN_ERROR"
      status := 403 }
  else if status = 415 then
    { message := "Invalid media type in the request: " ++ responseMessage response
      code := "AMAZON_MEDIA_TYPE_ERROR"
      status := 415 }
  else if status = 429 then
    match retryAfterHeader response with
    | some ra =>
      { message := "Rate limited by Amazon API. Try again after " ++ ra ++ " seconds."
        code := "AMAZON_RATE_LIMIT_ERROR"
        status := 429 }
    | none =>
      { message := "Rate limited by Amazon API. Please try again later."
        code := "AMAZON_RATE_LIMIT_ERROR"
        status := 429 }
  else if status = 500 then
    { message := "Amazon API internal server error: " ++ responseMessage response
      code := "AMAZON_SERVER_ERROR"
      status := 500 }
  else
    { message := "Failed to send event to Amazon: " ++ responseMessage response
      code := "AMAZON_API_ERROR"
      status := status }

/-- String `hay` contains `needle` as a contiguous substring, stated on the
underlying character lists. -/
def containsStr (hay needle : String) : Prop :=
  needle.data <:+: hay.data

/-- HTTP method of an outbound request. -/
inductive HttpMethod
  | POST
  | GET
  deriving DecidableEq

/-- The caller-held credentials `{refreshToken, accessToken}`. -/
structure Credentials where
  refreshToken : String
  accessToken : String
  deriving DecidableEq

/-- Process-wide configuration (client id / secret environment values);
either may be absent. -/
structure ClientConfig where
  clientId : Option String
  clientSecret : Option String
  deriving DecidableEq

/-- The outbound token-exchange request: URL, method, the value of the
`authorization` header, and the `URLSearchParams` form body as an
ordered field list. -/
structure TokenRequest where
  url : String
  method : HttpMethod
  authorizationHeader : String
  body : List (String × String)
  deriving DecidableEq

/-- The body of a successful token-endpoint response: only its
`access_token` field is read. -/
structure TokenResponseData where
  access_token : String
  deriving DecidableEq

/-- A successful token-endpoint response `{data: {access_token}}`. -/
structure TokenResponse where
  data : TokenResponseData
  deriving DecidableEq

/-- A transport failure (rejection): its `message` field when present,
and its stringified form used otherwise. -/
structure TransportFailure where
  message : Option String
  stringified : String
  deriving DecidableEq

/-- The message extracted from a transport failure: the `message` field
when present, otherwise the stringified failure. -/
def failureMessage (f : TransportFailure) : String :=
  f.message.getD f.stringified

/-- Modelled from the spec: the request that `getAuthToken` (absent
`utils` module) issues — POST to the fixed token endpoint, explicitly
empty `authorization` header, and form body with `grant_type`,
`refresh_token`, `client_id` and `client_secret`, the last two
degrading to the empty string when the configuration values are
absent. -/
def buildTokenRequest (cfg : ClientConfig) (credentials : Credentials) : TokenRequest :=
  { url := "https://api.amazon.com/auth/o2/token"
    method := .POST
    authorizationHeader := ""
    body := [("grant_type", "refresh_token"),
             ("refresh_token", credentials.refreshToken),
             ("client_id", cfg.clientId.getD ""),
             ("client_secret", cfg.clientSecret.getD "")] }

/-- Modelled from the spec: `getAuthToken` from the absent `utils`
module. It issues the single token request through the injected
transport; on success it returns `response.data.access_token`, on
failure it fails with `"Failed to refresh access token: "` followed by
the failure's message. The second component is the trace of requests
issued through the transport (always exactly one; no retry). -/
def getAuthToken (transport : TokenRequest → Except TransportFailure TokenResponse)
    (cfg : ClientConfig) (credentials : Credentials) :
    Except String String × List TokenRequest :=
  let req := buildTokenRequest cfg credentials
  match transport req with
  | .ok response => (.ok response.data.access_token, [req])
  | .error f => (.error ("Failed to refresh access token: " ++ failureMessage f), [req])

/-- Destination settings `{region, advertiserId}`. -/
structure Settings where
  region : String
  advertiserId : String
  deriving DecidableEq

/-- The `events` argument of the submitter: a single record or an
ordered sequence of records. -/
inductive EventsInput
  | single (e : EventData)
  | batch (es : List EventData)
  deriving DecidableEq

/-- The JSON body of the event-submission request. -/
structure EventsJsonBody where
  eventData : List EventData
  ingestionMethod : String
  deriving DecidableEq

/-- The outbound event-submission request: URL, method, header list,
JSON body, client-side timeout in milliseconds, and the
`throwHttpErrors` transport flag. -/
structure EventsRequest where
  url : String
  method : HttpMethod
  headers : List (String × String)
  json : EventsJsonBody
  timeout : Nat
  throwHttpErrors : Bool
  deriving DecidableEq

/-- Modelled from the spec: the request that `sendEventsRequest`
(absent `utils` module) issues — POST to `<region>/events/v1`, sole
header `Amazon-Ads-AccountId`, JSON body wrapping the events into an
array with `ingestionMethod: SERVER_TO_SERVER`, 25000 ms timeout, and
`throwHttpErrors` disabled. -/
def buildEventsRequest (settings : Settings) (events : EventsInput) : EventsRequest :=
  { url := settings.region ++ "/events/v1"
    method := .POST
    headers := [("Amazon-Ads-AccountId", settings.advertiserId)]
    json := { eventData := match events with
                | .single e => [e]
                | .batch es => es
              ingestionMethod := "SERVER_TO_SERVER" }
    timeout := 25000
    throwHttpErrors := false }

/-- Modelled from the spec: `sendEventsRequest` from the absent `utils`
module. It issues the single built request through the injected
transport and returns the raw response unmodified, with no status-code
branching. The second component is the trace of requests issued
(always exactly one). -/
def sendEventsRequest (transport : EventsRequest → ApiResponse)
    (settings : Settings) (events : EventsInput) :
    ApiResponse × List EventsRequest :=
  let req := buildEventsRequest settings events
  (transport req, [req])

/-- A needle placed between two other pieces is contained in the
concatenation. -/
theorem containsStr_parts (pre needle post : String) :
    containsStr (pre ++ needle ++ post) needle := by
  unfold containsStr
  rw [String.data_append, String.data_append]
  exact List.infix_append _ _ _

/-- If the needle is a prefix of the left piece of `L ++ mid ++ R`,
the concatenation contains it. -/
theorem containsStr_of_prefix_left (L mid R needle : String)
    (h : needle.data <+: L.data) :
    containsStr (L ++ mid ++ R) needle := by
  unfold containsStr
  rw [String.data_append, String.data_append, List.append_assoc]
  exact (h.trans (List.prefix_append _ _)).isInfix

/-- The 429 rate-limit message with a `retry-after` value contains the
echoed retry phrase. -/
theorem rateLimitMessage_contains_retry (ra : String) :
    containsStr ("Rate limited by Amazon API. Try again after " ++ ra ++ " seconds.")
      ("Try again after " ++ ra ++ " seconds") := by
  unfold containsStr
  refine ⟨("Rate limited by Amazon API. " : String).data, ("." : String).data, ?_⟩
  rw [String.data_append, String.data_append, String.data_append, String.data_append]
  have h1 : ("Rate limited by Amazon API. Try again after " : String).data =
      ("Rate limited by Amazon API. " : String).data ++
        ("Try again after " : String).data := by decide
  have h2 : (" seconds." : String).data =
      (" seconds" : String).data ++ ("." : String).data := by decide
  rw [h1, h2]
  simp [List.append_assoc]

/-- Claim C1: for a response whose status is 401, 403, 415 or 500, the
classifier returns code `AMAZON_AUTH_ERROR`, `AMAZON_FORBIDDEN_ERROR`,
`AMAZON_MEDIA_TYPE_ERROR`, `AMAZON_SERVER_ERROR` respectively, each
preserving the original status in the returned error. -/
theorem claim_C1_status_to_code (response : ApiResponse) :
    (response.status = some 401 →
      (handleAmazonApiError response).code = "AMAZON_AUTH_ERROR" ∧
      (handleAmazonApiError response).status = 401) ∧
    (response.status = some 403 →
      (handleAmazonApiError response).code = "AMAZON_FORBIDDEN_ERROR" ∧
      (handleAmazonApiError response).status = 403) ∧
    (response.status = some 415 →
      (handleAmazonApiError response).code = "AMAZON_MEDIA_TYPE_ERROR" ∧
      (handleAmazonApiError response).status = 415) ∧
    (response.status = some 500 →
      (handleAmazonApiError response).code = "AMAZON_SERVER_ERROR" ∧
      (handleAmazonApiError response).status = 500) := by
  refine ⟨fun h => ?_, fun h => ?_, fun h => ?_, fun h => ?_⟩ <;>
    simp [handleAmazonApiError, h]

/-- Witness for C1 at a concrete 401 response. -/
theorem claim_C1_status_to_code_witness :
    (handleAmazonApiError ⟨some 401, some ⟨some "Invalid credentials"⟩, none⟩).code =
      "AMAZON_AUTH_ERROR" ∧
    (handleAmazonApiError ⟨some 401, some ⟨some "Invalid credentials"⟩, none⟩).status = 401 :=
  (claim_C1_status_to_code ⟨some 401, some ⟨some "Invalid credentials"⟩, none⟩).1 rfl

/-- Claim C2: for a 429 response the classifier returns
`AMAZON_RATE_LIMIT_ERROR` with status 429; the message contains
"Rate limited by Amazon API"; it contains
"Try again after <retry-after> seconds" (header value echoed verbatim)
exactly when a `retry-after` header is present, and otherwise contains
"Please try again later" (and no "Try again after" phrase at all). -/
theorem claim_C2_rate_limit (response : ApiResponse)
    (h : response.status = some 429) :
    (handleAmazonApiError response).code = "AMAZON_RATE_LIMIT_ERROR" ∧
    (handleAmazonApiError response).status = 429 ∧
    containsStr (handleAmazonApiError response).message "Rate limited by Amazon API" ∧
    (∀ ra, retryAfterHeader response = some ra →
      containsStr (handleAmazonApiError response).message
        ("Try again after " ++ ra ++ " seconds")) ∧
    (retryAfterHeader response = none →
      containsStr (handleAmazonApiError response).message "Please try again later" ∧
      ¬ containsStr (handleAmazonApiError response).message "Try again after") := by
  cases hra : retryAfterHeader response with
  | some ra =>
    have e : handleAmazonApiError response =
        { message := "Rate limited by Amazon API. Try again after " ++ ra ++ " seconds."
          code := "AMAZON_RATE_LIMIT_ERROR"
          status := 429 } := by
      simp [handleAmazonApiError, h, hra]
    rw [e]
    refine ⟨rfl, rfl, ?_, ?_, ?_⟩
    · exact containsStr_of_prefix_left _ ra " seconds." _ (by decide)
    · intro ra' hra'
      rw [Option.some_inj] at hra'
      subst hra'
      exact rateLimitMessage_contains_retry ra
    · intro hnone
      exact Option.noConfusion hnone
  | none =>
    have e : handleAmazonApiError response =
        { message := "Rate limited by Amazon API. Please try again later."
          code := "AMAZON_RATE_LIMIT_ERROR"
          status := 429 } := by
      simp [handleAmazonApiError, h, hra]
    rw [e]
    refine ⟨rfl, rfl, ?_, ?_, ?_⟩
    · unfold containsStr
      decide
    · intro ra hra'
      exact Option.noConfusion hra'
    · intro _
      refine ⟨?_, ?_⟩
      · unfold containsStr
        decide
      · unfold containsStr
        decide

/-- Witness for C2 at a concrete 429 response carrying
`retry-after: "30"`. -/
theorem claim_C2_rate_limit_witness :
    (handleAmazonApiError ⟨some 429, some ⟨some "Too many requests"⟩, some ⟨some "30"⟩⟩).code =
      "AMAZON_RATE_LIMIT_ERROR" ∧
    containsStr
      (handleAmazonApiError ⟨some 429, some ⟨some "Too many requests"⟩, some ⟨some "30"⟩⟩).message
      ("Try again after " ++ "30" ++ " seconds") := by
  have h := claim_C2_rate_limit ⟨some 429, some ⟨some "Too many requests"⟩, some ⟨some "30"⟩⟩ rfl
  exact ⟨h.1, h.2.2.2.1 "30" rfl⟩

/-- Claim C3: for a response whose status is none of 401/403/415/429/500
(including an absent status), the classifier returns `AMAZON_API_ERROR`
with message "Failed to send event to Amazon: " followed by
`data.message` (falling back to "Unknown error"), the returned status
defaults to 400 when absent, and an absent status is treated
identically to an explicit 400. -/
theorem claim_C3_default_branch (response : ApiResponse)
    (h : ∀ s, response.status = some s →
      s ≠ 401 ∧ s ≠ 403 ∧ s ≠ 415 ∧ s ≠ 429 ∧ s ≠ 500) :
    (handleAmazonApiError response).code = "AMAZON_API_ERROR" ∧
    (handleAmazonApiError response).message =
      "Failed to send event to Amazon: " ++ responseMessage response ∧
    (handleAmazonApiError response).status = response.status.getD 400 ∧
    handleAmazonApiError { response with status := none } =
      handleAmazonApiError { response with status := some 400 } := by
  have hlast : handleAmazonApiError { response with status := none } =
      handleAmazonApiError { response with status := some 400 } := by
    simp [handleAmazonApiError, responseMessage, retryAfterHeader]
  cases hs : response.status with
  | none =>
    refine ⟨?_, ?_, ?_, hlast⟩ <;> simp [handleAmazonApiError, hs]
  | some s =>
    obtain ⟨h1, h2, h3, h4, h5⟩ := h s hs
    refine ⟨?_, ?_, ?_, hlast⟩ <;> simp [handleAmazonApiError, hs, h1, h2, h3, h4, h5]

/-- Witness for C3 at a concrete 418 response. -/
theorem claim_C3_default_branch_witness :
    (handleAmazonApiError ⟨some 418, some ⟨some "Invalid parameter"⟩, none⟩).code =
      "AMAZON_API_ERROR" ∧
    (handleAmazonApiError ⟨some 418, some ⟨some "Invalid parameter"⟩, none⟩).message =
      "Failed to send event to Amazon: " ++
        responseMessage ⟨some 418, some ⟨some "Invalid parameter"⟩, none⟩ ∧
    (handleAmazonApiError ⟨some 418, some ⟨some "Invalid parameter"⟩, none⟩).status =
      (some 418).getD 400 := by
  have h := claim_C3_default_branch ⟨some 418, some ⟨some "Invalid parameter"⟩, none⟩
    (by
      intro s hs
      rw [Option.some_inj] at hs
      subst hs
      decide)
  exact ⟨h.1, h.2.1, h.2.2.1⟩

/-- Claim C4: when the transport call succeeds with a body carrying
`access_token = T`, `getAuthToken` returns exactly `T` (for credentials
with a non-empty refresh token). -/
theorem claim_C4_token_success
    (transport : TokenRequest → Except TransportFailure TokenResponse)
    (cfg : ClientConfig) (credentials : Credentials) (response : TokenResponse)
    (hne : credentials.refreshToken ≠ "")
    (hok : transport (buildTokenRequest cfg credentials) = .ok response) :
    (getAuthToken transport cfg credentials).1 = .ok response.data.access_token := by
  simp [getAuthToken, hok]

/-- Witness for C4 at a concrete transport and credentials. -/
theorem claim_C4_token_success_witness :
    (getAuthToken (fun _ => .ok ⟨⟨"new-access-token-123"⟩⟩) ⟨none, none⟩
      ⟨"test-refresh-token", "old-token"⟩).1 = .ok "new-access-token-123" :=
  claim_C4_token_success (fun _ => .ok ⟨⟨"new-access-token-123"⟩⟩) ⟨none, none⟩
    ⟨"test-refresh-token", "old-token"⟩ ⟨⟨"new-access-token-123"⟩⟩ (by decide) rfl

/-- Claim C5: when the transport call fails with failure `f`,
`getAuthToken` fails with message exactly
"Failed to refresh access token: " followed by the failure's message
(its `message` field when present, otherwise its stringified form),
and exactly one request was issued (no retry). -/
theorem claim_C5_token_failure
    (transport : TokenRequest → Except TransportFailure TokenResponse)
    (cfg : ClientConfig) (credentials : Credentials) (f : TransportFailure)
    (herr : transport (buildTokenRequest cfg credentials) = .error f) :
    (getAuthToken transport cfg credentials).1 =
      .error ("Failed to refresh access token: " ++ failureMessage f) ∧
    (getAuthToken transport cfg credentials).2.length = 1 := by
  simp [getAuthToken, herr]

/-- Witness for C5 at a concrete rejecting transport. -/
theorem claim_C5_token_failure_witness :
    (getAuthToken (fun _ => .error ⟨some "Invalid refresh token", "[object Object]"⟩)
      ⟨none, none⟩ ⟨"test-refresh-token", "old-token"⟩).1 =
      .error ("Failed to refresh access token: " ++
        failureMessage ⟨some "Invalid refresh token", "[object Object]"⟩) :=
  (claim_C5_token_failure (fun _ => .error ⟨some "Invalid refresh token", "[object Object]"⟩)
    ⟨none, none⟩ ⟨"test-refresh-token", "old-token"⟩
    ⟨some "Invalid refresh token", "[object Object]"⟩ rfl).1

/-- Claim C6: every invocation of `getAuthToken` issues exactly one POST
request to the fixed URL with an empty authorization header and a form
body holding `grant_type`, `refresh_token`, `client_id` and
`client_secret`, the latter two degrading to the empty string (still
present) when the configuration values are absent. -/
theorem claim_C6_token_request_shape
    (transport : TokenRequest → Except TransportFailure TokenResponse)
    (cfg : ClientConfig) (credentials : Credentials) :
    (getAuthToken transport cfg credentials).2 = [buildTokenRequest cfg credentials] ∧
    (buildTokenRequest cfg credentials).url = "https://api.amazon.com/auth/o2/token" ∧
    (buildTokenRequest cfg credentials).method = HttpMethod.POST ∧
    (buildTokenRequest cfg credentials).authorizationHeader = "" ∧
    (buildTokenRequest cfg credentials).body =
      [("grant_type", "refresh_token"),
       ("refresh_token", credentials.refreshToken),
       ("client_id", cfg.clientId.getD ""),
       ("client_secret", cfg.clientSecret.getD "")] ∧
    (buildTokenRequest ⟨none, none⟩ credentials).body =
      [("grant_type", "refresh_token"),
       ("refresh_token", credentials.refreshToken),
       ("client_id", ""),
       ("client_secret", "")] := by
  refine ⟨?_, rfl, rfl, rfl, rfl, rfl⟩
  cases htr : transport (buildTokenRequest cfg credentials) <;>
    simp [getAuthToken, htr]

/-- Claim C7: the JSON body's `eventData` field is an array with the
same length and order as the events input: a single record is wrapped
into a one-element array, a batch is sent as given. -/
theorem claim_C7_event_array_shape (transport : EventsRequest → ApiResponse)
    (settings : Settings) (e : EventData) (es : List EventData) :
    ((sendEventsRequest transport settings (.single e)).2.map
        (fun r => r.json.eventData)) = [[e]] ∧
    ((sendEventsRequest transport settings (.batch es)).2.map
        (fun r => r.json.eventData)) = [es] ∧
    (buildEventsRequest settings (.batch es)).json.eventData.length = es.length :=
  ⟨rfl, rfl, rfl⟩

/-- Claim C8: `sendEventsRequest` issues exactly one POST request to
`<region>/events/v1` carrying exactly the `Amazon-Ads-AccountId`
header, JSON ingestion method `SERVER_TO_SERVER`, a 25000 ms timeout
and `throwHttpErrors = false`, and returns the transport's raw
response unmodified with no status branching of its own. -/
theorem claim_C8_submit_request_shape (transport : EventsRequest → ApiResponse)
    (settings : Settings) (events : EventsInput) :
    (sendEventsRequest transport settings events).2 =
      [buildEventsRequest settings events] ∧
    (sendEventsRequest transport settings events).1 =
      transport (buildEventsRequest settings events) ∧
    (buildEventsRequest settings events).url = settings.region ++ "/events/v1" ∧
    (buildEventsRequest settings events).method = HttpMethod.POST ∧
    (buildEventsRequest settings events).headers =
      [("Amazon-Ads-AccountId", settings.advertiserId)] ∧
    (buildEventsRequest settings events).json.ingestionMethod = "SERVER_TO_SERVER" ∧
    (buildEventsRequest settings events).timeout = 25000 ∧
    (buildEventsRequest settings events).throwHttpErrors = false :=
  ⟨rfl, rfl, rfl, rfl, rfl, rfl, rfl, rfl⟩

/-- Claim C9: `getAuthToken` is independent of the caller-held
`accessToken` field: two credentials agreeing on `refreshToken` yield
the identical request trace and the identical result. -/
theorem claim_C9_access_token_independence
    (transport : TokenRequest → Except TransportFailure TokenResponse)
    (cfg : ClientConfig) (c1 c2 : Credentials)
    (h : c1.refreshToken = c2.refreshToken) :
    getAuthToken transport cfg c1 = getAuthToken transport cfg c2 := by
  have hb : buildTokenRequest cfg c1 = buildTokenRequest cfg c2 := by
    simp [buildTokenRequest, h]
  unfold getAuthToken
  rw [hb]

/-- Witness for C9: same refresh token, different cached access tokens. -/
theorem claim_C9_access_token_independence_witness :
    getAuthToken (fun _ => .ok ⟨⟨"tok"⟩⟩) ⟨none, none⟩ ⟨"refresh-1", "cached-a"⟩ =
    getAuthToken (fun _ => .ok ⟨⟨"tok"⟩⟩) ⟨none, none⟩ ⟨"refresh-1", "cached-b"⟩ :=
  claim_C9_access_token_independence (fun _ => .ok ⟨⟨"tok"⟩⟩) ⟨none, none⟩
    ⟨"refresh-1", "cached-a"⟩ ⟨"refresh-1", "cached-b"⟩ rfl

/-- Claim C10: the classifier is total: for every response it returns a
fully constructed normalized error whose code is one of the six fixed
values. -/
theorem claim_C10_classifier_total (response : ApiResponse) :
    (handleAmazonApiError response).code ∈
      (["AMAZON_AUTH_ERROR", "AMAZON_FORBIDDEN_ERROR", "AMAZON_MEDIA_TYPE_ERROR",
        "AMAZON_RATE_LIMIT_ERROR", "AMAZON_SERVER_ERROR", "AMAZON_API_ERROR"] :
        List String) := by
  cases hra : retryAfterHeader response <;>
    simp only [handleAmazonApiError, hra] <;>
    split_ifs <;>
    simp
